import Mathlib

/-!
Verification development for the go-raspi-temp-monitor repository
(`cmd/main.go`).  The Go program is shallowly embedded: temperatures are
rationals (standing for `float64` values, exact on the inputs considered),
file reads and subprocess executions are passed in as explicit inputs
(`Except`/structures), and the mail subprocess invocation is recorded as an
explicit `Invocation` value so that "no subprocess is invoked" is a provable
statement.
-/

deriving instance DecidableEq for Except

namespace TempMonitor

/-- Constant `appName` from `cmd/main.go`. -/
def appName : String := "Go-Raspi-Temp-Monitor"

/-- Constant `noEmailRecipient` from `cmd/main.go`: the sentinel value used
when no recipient is configured. -/
def noEmailRecipient : String := "<none>"

/-- Constant `cpuTempFilePath` from `cmd/main.go`. -/
def cpuTempFilePath : String := "/sys/class/thermal/thermal_zone0/temp"

/-- Constant `mailCommand` from `cmd/main.go`. -/
def mailCommand : String := "/usr/bin/mail"

/-- The 15-second deadline passed to `context.WithTimeout` in `sendEmail`. -/
def mailTimeoutSeconds : Nat := 15

/-- The `config` struct from `cmd/main.go`.  `TempThreshold` (a Go `float64`)
is modelled as a rational; `CheckInterval` (a Go `time.Duration`, an `int64`
count of nanoseconds) as an integer. -/
structure Config where
  EmailRecipient : String
  TempThreshold : ℚ
  CheckInterval : Int
  TestEmailFlag : Bool
  Hostname : String
deriving DecidableEq, Repr

/-- Model of Go `unicode.IsSpace` restricted to the Latin-1 space characters
(`'\t'`, `'\n'`, `'\v'`, `'\f'`, `'\r'`, `' '`, U+0085, U+00A0); the
non-Latin-1 Unicode space code points are not modelled. -/
def isSpaceChar (c : Char) : Bool :=
  c = ' ' || c = '\t' || c = '\n' || c = '\r' || c = '\x0b' || c = '\x0c' ||
  c = '\x85' || c = '\xA0'

/-- Model of Go `strings.TrimSpace`: drop leading and trailing space
characters. -/
def trimSpace (s : String) : String :=
  String.mk (((s.data.dropWhile isSpaceChar).reverse.dropWhile isSpaceChar).reverse)

/-- Split a character list into its longest all-digit leading segment and the
remainder (the digit-scanning step of `strconv.ParseFloat`). -/
def spanDigits : List Char → List Char × List Char
  | [] => ([], [])
  | c :: cs =>
    if c.isDigit then
      let p := spanDigits cs
      (c :: p.1, p.2)
    else ([], c :: cs)

/-- Numeric value of a list of decimal digit characters. -/
def digitsVal (l : List Char) : ℕ :=
  l.foldl (fun a c => 10 * a + (c.toNat - 48)) 0

/-- Exponent-sign test inside a `strconv.ParseFloat` exponent part: the
exponent is negative exactly when it starts with `'-'`. -/
def expSignPos : List Char → Bool
  | '-' :: _ => false
  | _ => true

/-- Strip a leading `'+'` or `'-'` from an exponent part. -/
def stripExpSign : List Char → List Char
  | '+' :: r => r
  | '-' :: r => r
  | r => r

/-- Parse the digits of an exponent part: the whole remaining input must be a
nonempty digit string.  `mant` is the already-parsed mantissa value. -/
def parseExpDigits (l : List Char) (mant : ℚ) (pos : Bool) : Option ℚ :=
  let p := spanDigits l
  if p.1 = [] ∨ p.2 ≠ [] then none
  else some (if pos then mant * 10 ^ digitsVal p.1 else mant / 10 ^ digitsVal p.1)

/-- Parse the optional exponent part (`e`/`E`, optional sign, digits) that may
follow the mantissa in `strconv.ParseFloat`; empty input means no exponent. -/
def parseExp (l : List Char) (mant : ℚ) : Option ℚ :=
  match l with
  | [] => some mant
  | c :: rest =>
    if c = 'e' ∨ c = 'E' then
      parseExpDigits (stripExpSign rest) mant (expSignPos rest)
    else none

/-- Parse an unsigned `strconv.ParseFloat` body: digits, an optional `'.'`
with further digits (at least one digit in total), and an optional
exponent. -/
def parseMantissa (l : List Char) : Option ℚ :=
  let p := spanDigits l
  match p.2 with
  | '.' :: rest2 =>
    let q := spanDigits rest2
    if p.1 = [] ∧ q.1 = [] then none
    else parseExp q.2 ((digitsVal p.1 : ℚ) + (digitsVal q.1 : ℚ) / 10 ^ q.1.length)
  | _ =>
    if p.1 = [] then none else parseExp p.2 (digitsVal p.1)

/-- Model of Go `strconv.ParseFloat` restricted to the decimal forms:
optional sign, then a decimal mantissa with optional fraction and optional
exponent.  The value is computed exactly as a rational (a `float64` result is
this value up to one rounding).  The model's acceptance set is a strict
subset of `strconv.ParseFloat`'s: `NaN`, `Inf`/`Infinity` (case-insensitive),
hexadecimal floats and digit-group underscores are accepted by Go but
rejected here (their values are not rationals or need no claim), so
acceptance by this model is sound evidence the program parses, while
rejection by it is not evidence the program fails. -/
def parseFloat (l : List Char) : Option ℚ :=
  match l with
  | '+' :: rest => parseMantissa rest
  | '-' :: rest => (parseMantissa rest).map (fun q => -q)
  | rest => parseMantissa rest

/-- Errors raised by `getCPUTemperature`: a wrapped read error
(`failed to read temperature file ...`) or a parse error
(`failed to parse temperature value '<tempStr>'`, carrying the trimmed
string). -/
inductive TempError
  | ioError (msg : String)
  | parseError (tempStr : String)
deriving DecidableEq, Repr

/-- `getCPUTemperature` from `cmd/main.go`.  The `os.ReadFile` outcome is the
explicit input: `.error e` is a failed read with message `e`, `.ok data` is
the file content.  On success the code trims whitespace, parses the content
with `strconv.ParseFloat`, and divides by 1000.0. -/
def getCPUTemperature (file : Except String String) : Except TempError ℚ :=
  match file with
  | .error e =>
    .error (.ioError ("failed to read temperature file " ++ cpuTempFilePath ++ ": " ++ e))
  | .ok data =>
    let tempStr := trimSpace data
    match parseFloat tempStr.data with
    | none => .error (.parseError tempStr)
    | some tempVal => .ok (tempVal / 1000)

/-- Decide whether `pat` is a leading segment of `s` (character-wise
comparison, the occurrence test of Go `strings.Replace`). -/
def matchesAt : List Char → List Char → Bool
  | [], _ => true
  | _ :: _, [] => false
  | p :: ps, x :: xs => p == x && matchesAt ps xs

/-- Model of Go `strings.ReplaceAll s pat rep` for a nonempty pattern: scan
left to right, replacing each non-overlapping occurrence of `pat` by `rep`.
(Go's special behaviour for an empty pattern is not modelled; the program
only ever uses the pattern `";"`.) -/
def replaceAll (pat rep : List Char) : List Char → List Char
  | [] => []
  | x :: xs =>
    if pat ≠ [] ∧ matchesAt pat (x :: xs) then
      rep ++ replaceAll pat rep (List.drop (pat.length - 1) xs)
    else
      x :: replaceAll pat rep xs
termination_by l => l.length
decreasing_by
  · simp only [List.length_drop, List.length_cons]
    omega
  · simp only [List.length_cons]
    omega

/-- A recorded invocation of the external mail executable: the command path,
its argument vector, and the text piped to its standard input. -/
structure Invocation where
  cmdPath : String
  args : List String
  stdin : String
deriving DecidableEq, Repr

/-- The outcome of running the mail subprocess, the environment input to
`sendEmail`: whether `cmd.Run()` returned an error, the error's text, what
the subprocess wrote to standard error, and whether the 15-second context
deadline (`mailTimeoutSeconds`) was exceeded. -/
structure MailEnv where
  runErr : Bool
  errText : String
  stderr : String
  deadlineExceeded : Bool
deriving DecidableEq, Repr

/-- Errors returned by `sendEmail`: a plain send failure (wrapping the run
error text), or the distinguished timeout failure (wrapping
`context.DeadlineExceeded`). -/
inductive SendError
  | sendError (msg : String) (wrapped : String)
  | timeoutError (msg : String)
deriving DecidableEq, Repr

/-- A send failure is a timeout exactly when it is the `timeoutError`
variant (in Go: `errors.Is(err, context.DeadlineExceeded)`). -/
def SendError.isTimeout : SendError → Bool
  | .timeoutError _ => true
  | .sendError _ _ => false

/-- `sendEmail` from `cmd/main.go`.  Returns the send result together with
the subprocess invocation performed, if any.  With the sentinel recipient it
is an explicit no-op; otherwise it strips `';'` from the subject and the
recipient, invokes `mailCommand -s <subject> <recipient>` with `body` on
standard input, and classifies a failed run as a timeout or a plain send
error depending on the context deadline. -/
def sendEmail (cfg : Config) (subject body : String) (env : MailEnv) :
    Except SendError Unit × Option Invocation :=
  if cfg.EmailRecipient = noEmailRecipient then
    (.ok (), none)
  else
    let sanitizedSubject := String.mk (replaceAll [';'] [] subject.data)
    let sanitizedRecipient := String.mk (replaceAll [';'] [] cfg.EmailRecipient.data)
    let inv : Invocation :=
      { cmdPath := mailCommand
        args := ["-s", sanitizedSubject, sanitizedRecipient]
        stdin := body }
    if env.runErr then
      let errMsg := "failed to send email: " ++ env.errText
      let errMsg := if env.stderr.length > 0 then errMsg ++ ". Stderr: " ++ env.stderr else errMsg
      if env.deadlineExceeded then
        (.error (.timeoutError (errMsg ++ " (timed out)")), some inv)
      else
        (.error (.sendError errMsg env.errText), some inv)
    else
      (.ok (), some inv)

/-- Model of Go `fmt.Sprintf "%.2f"` on an exact rational: round the absolute
value to centidegrees (half away from zero; the binary-`float64` rounding
artifacts of the original are not modelled) and print two decimals. -/
def formatF2 (q : ℚ) : String :=
  let a : ℚ := if q < 0 then -q else q
  let n : ℕ := (⌊a * 100 + 1 / 2⌋).toNat
  (if q < 0 then "-" else "") ++ toString (n / 100) ++ "." ++
    (if n % 100 < 10 then "0" else "") ++ toString (n % 100)

/-- The outcome of one evaluation cycle (`compareTemperatures`): every branch
of the Go function returns normally and is one of these values. -/
inductive CycleOutcome
  | readFailed (e : TempError)
  | noAlert (temp : ℚ)
  | alertNoRecipient (temp : ℚ)
  | alertSent (temp : ℚ)
  | alertSendFailed (temp : ℚ) (e : SendError)
deriving DecidableEq, Repr

/-- An outcome counts as an alert decision exactly in the three branches the
Go code reaches after `currentTemp > cfg.TempThreshold` holds. -/
def CycleOutcome.isAlert : CycleOutcome → Bool
  | .alertNoRecipient _ => true
  | .alertSent _ => true
  | .alertSendFailed _ _ => true
  | .readFailed _ => false
  | .noAlert _ => false

/-- `compareTemperatures` from `cmd/main.go`: read the sensor (`sensor` is
the `os.ReadFile` outcome), swallow a read error, compare against the
threshold, and on a strict exceedance send the alert email unless the
recipient is the sentinel.  `now` stands for the formatted
`time.Now()` timestamp. -/
def compareTemperatures (cfg : Config) (sensor : Except String String)
    (env : MailEnv) (now : String) : CycleOutcome × Option Invocation :=
  match getCPUTemperature sensor with
  | .error e => (.readFailed e, none)
  | .ok currentTemp =>
    if currentTemp > cfg.TempThreshold then
      if cfg.EmailRecipient = noEmailRecipient then
        (.alertNoRecipient currentTemp, none)
      else
        let subject := appName ++ ": CPU Temp Alert (" ++ cfg.Hostname ++ "): " ++
          formatF2 currentTemp ++ "°C"
        let body := "Warning: CPU temperature on " ++ cfg.Hostname ++
          " has exceeded threshold\nThreshold temp: " ++ formatF2 cfg.TempThreshold ++
          "°C\nCurrent temp: " ++ formatF2 currentTemp ++ "°C\nTimestamp: " ++ now
        let r := sendEmail cfg subject body env
        (match r.1 with
         | .ok _ => .alertSent currentTemp
         | .error e => .alertSendFailed currentTemp e,
         r.2)
    else
      (.noAlert currentTemp, none)

/-- Errors returned by `sendTestEmail`: the missing-recipient error
(`errTestEmailRequiresRecipient`), a propagated sensor read error, or a
wrapped send failure. -/
inductive TestError
  | missingRecipient
  | readError (e : TempError)
  | sendFailed (e : SendError)
deriving DecidableEq, Repr

/-- `sendTestEmail` from `cmd/main.go`: reject the sentinel recipient, then
read the sensor, then compose the test subject and body and send them. -/
def sendTestEmail (cfg : Config) (sensor : Except String String)
    (env : MailEnv) (now : String) : Except TestError Unit × Option Invocation :=
  if cfg.EmailRecipient = noEmailRecipient then
    (.error .missingRecipient, none)
  else
    match getCPUTemperature sensor with
    | .error e => (.error (.readError e), none)
    | .ok currentTemp =>
      let subject := appName ++ ": Test Alert (" ++ cfg.Hostname ++ ")"
      let body := "Warning: this is a test email\nHostname: " ++ cfg.Hostname ++
        "\nCurrent CPU temperature: " ++ formatF2 currentTemp ++ "°C\nTimestamp: " ++ now
      let r := sendEmail cfg subject body env
      (match r.1 with
       | .ok _ => .ok ()
       | .error e => .error (.sendFailed e),
       r.2)

/-- The file type reported by `os.Stat`, as far as `validateMailCommand`
consults it. -/
inductive FileType
  | regular
  | directory
  | other
deriving DecidableEq, Repr

/-- The part of an `os.FileInfo` that `validateMailCommand` reads: the file
type (for `IsDir`) and the permission bits of `Mode()`. -/
structure FileInfo where
  ftype : FileType
  perm : ℕ
deriving DecidableEq, Repr

/-- `info.IsDir()`. -/
def FileInfo.IsDir (info : FileInfo) : Bool :=
  info.ftype = FileType.directory

/-- The `os.Stat` outcome fed to `validateMailCommand`: the path does not
exist, the stat failed for another reason, or it returned a `FileInfo`. -/
inductive StatResult
  | notExist
  | statError (msg : String)
  | found (info : FileInfo)
deriving DecidableEq, Repr

/-- The startup configuration errors raised by `validateMailCommand`. -/
inductive ConfigError
  | notExistErr (path : String)
  | statErr (msg : String)
  | isDirectoryErr (path : String)
  | notExecutableErr (path : String)
deriving DecidableEq, Repr

/-- `validateMailCommand` from `cmd/main.go`: reject a missing path, any
other stat failure, a directory, and a mode with no executable bit
(`Mode()&0111 == 0`); otherwise accept. -/
def validateMailCommand (path : String) (stat : StatResult) : Except ConfigError Unit :=
  match stat with
  | .notExist => .error (.notExistErr path)
  | .statError e => .error (.statErr e)
  | .found info =>
    if info.IsDir then .error (.isDirectoryErr path)
    else if info.perm &&& 0o111 = 0 then .error (.notExecutableErr path)
    else .ok ()

/-- `showConfiguration` from `cmd/main.go`.  The Go function receives
`*config` and, besides logging, assigns `cfg.EmailRecipient = noEmailRecipient`
when the recipient is the empty string; the returned value is the
configuration after the call. -/
def showConfiguration (cfg : Config) : Config :=
  if cfg.EmailRecipient = "" then { cfg with EmailRecipient := noEmailRecipient } else cfg

/-- One event at the single `select` point of `tempCheckLoop`: a ticker
firing (carrying that cycle's sensor and mail environment) or an OS
signal. -/
inductive LoopEvent
  | tick (sensor : Except String String) (env : MailEnv) (now : String)
  | signal (sig : String)

/-- The two states of the loop: running, or shutting down (the terminal
state reached via `goodbye()` after a signal). -/
inductive LoopState
  | running
  | shuttingDown
deriving DecidableEq, Repr

/-- One iteration of the `select` loop in `tempCheckLoop`: a tick runs
`compareTemperatures` and stays in `running`; a signal transitions to
`shuttingDown` without running a cycle. -/
def loopStep (cfg : Config) : LoopEvent → LoopState × Option (CycleOutcome × Option Invocation)
  | .tick sensor env now => (.running, some (compareTemperatures cfg sensor env now))
  | .signal _ => (.shuttingDown, none)

/-- Value of a nonempty character list read as a decimal integer: an optional
leading minus sign followed by a nonempty digit string. -/
def intFromChars (c : Char) (cs : List Char) : Option ℤ :=
  if c = '-' then
    if cs ≠ [] ∧ cs.all Char.isDigit then some (-(digitsVal cs : ℤ)) else none
  else if (c :: cs).all Char.isDigit then some ((digitsVal (c :: cs) : ℤ)) else none

/-- Formalisation of "the string is the decimal representation of the
integer `m`": `intFromString s = some m` holds exactly when `s` is an
optional leading minus sign followed by a nonempty digit string of value
`m`. -/
def intFromString (s : String) : Option ℤ :=
  match s.data with
  | [] => none
  | c :: cs => intFromChars c cs

theorem spanDigits_all (l : List Char) (h : l.all Char.isDigit = true) :
    spanDigits l = (l, []) := by
  induction l with
  | nil => rfl
  | cons c cs ih =>
    simp only [List.all_cons, Bool.and_eq_true] at h
    simp [spanDigits, h.1, ih h.2]

theorem parseMantissa_digits (l : List Char) (h : l.all Char.isDigit = true)
    (hne : l ≠ []) : parseMantissa l = some ((digitsVal l : ℚ)) := by
  have hsp := spanDigits_all l h
  cases l with
  | nil => exact absurd rfl hne
  | cons c cs =>
    have hc : c.isDigit = true := by
      simp only [List.all_cons, Bool.and_eq_true] at h
      exact h.1
    have hcd : c ≠ '.' := by
      intro hcontra
      rw [hcontra] at hc
      exact absurd hc (by decide)
    simp only [parseMantissa, hsp]
    cases hcc : (c :: cs) with
    | nil => simp at hcc
    | cons d ds => simp [← hcc, parseExp]

theorem parseFloat_digits (l : List Char) (h : l.all Char.isDigit = true)
    (hne : l ≠ []) : parseFloat l = some ((digitsVal l : ℚ)) := by
  cases l with
  | nil => exact absurd rfl hne
  | cons c cs =>
    have hc : c.isDigit = true := by
      simp only [List.all_cons, Bool.and_eq_true] at h
      exact h.1
    have hplus : c ≠ '+' := by
      intro hcontra; rw [hcontra] at hc; exact absurd hc (by decide)
    have hminus : c ≠ '-' := by
      intro hcontra; rw [hcontra] at hc; exact absurd hc (by decide)
    unfold parseFloat
    split
    · rename_i heq
      injection heq with h1 _
      exact absurd h1 hplus
    · rename_i heq
      injection heq with h1 _
      exact absurd h1 hminus
    · exact parseMantissa_digits _ h hne

theorem parseFloat_neg_digits (l : List Char) (h : l.all Char.isDigit = true)
    (hne : l ≠ []) : parseFloat ('-' :: l) = some (-(digitsVal l : ℚ)) := by
  simp [parseFloat, parseMantissa_digits l h hne]

theorem replaceAll_semicolon (l : List Char) :
    replaceAll [';'] [] l = l.filter (fun c => c != ';') := by
  induction l with
  | nil => simp [replaceAll]
  | cons x xs ih =>
    by_cases hx : x = ';'
    · subst hx
      rw [replaceAll]
      simp [matchesAt, ih]
    · rw [replaceAll]
      have hm : matchesAt [';'] (x :: xs) = false := by
        simp [matchesAt]
        exact fun hcontra => absurd hcontra.symm hx
      simp [hm, ih, hx]

theorem sendEmail_invocation (cfg : Config) (subject body : String) (env : MailEnv)
    (h : cfg.EmailRecipient ≠ noEmailRecipient) :
    (sendEmail cfg subject body env).2 =
      some { cmdPath := mailCommand
             args := ["-s", String.mk (replaceAll [';'] [] subject.data),
                      String.mk (replaceAll [';'] [] cfg.EmailRecipient.data)]
             stdin := body } := by
  simp only [sendEmail, if_neg h]
  cases hrun : env.runErr <;> cases hdl : env.deadlineExceeded <;> simp [hrun, hdl]

theorem getCPUTemperature_ofIntString (s : String) (m : ℤ)
    (h : intFromString (trimSpace s) = some m) :
    getCPUTemperature (.ok s) = .ok ((m : ℚ) / 1000) := by
  have hp : parseFloat (trimSpace s).data = some ((m : ℚ)) := by
    rcases hdata : (trimSpace s).data with _ | ⟨c, cs⟩
    · simp [intFromString, hdata] at h
    · simp only [intFromString, hdata] at h
      by_cases hc : c = '-'
      · rw [intFromChars, if_pos hc] at h
        by_cases hcond : cs ≠ [] ∧ cs.all Char.isDigit
        · rw [if_pos hcond] at h
          injection h with hm
          rw [hc, parseFloat_neg_digits cs hcond.2 hcond.1, ← hm]
          push_cast
          ring_nf
        · rw [if_neg hcond] at h
          exact absurd h (by simp)
      · rw [intFromChars, if_neg hc] at h
        by_cases hcond : (c :: cs).all Char.isDigit
        · rw [if_pos hcond] at h
          injection h with hm
          rw [parseFloat_digits (c :: cs) hcond (by simp), ← hm]
          push_cast
          ring_nf
        · rw [if_neg hcond] at h
          exact absurd h (by simp)
  simp [getCPUTemperature, hp]

/-! ### Claim theorems -/

/-- C1: `compareTemperatures` decides an alert if and only if the reading
strictly exceeds the configured threshold; at equality the decision is
`noAlert` and no mail subprocess invocation is attempted. -/
theorem compareTemperatures_alert_iff (cfg : Config) (sensor : Except String String)
    (env : MailEnv) (now : String) (r : ℚ) (h : getCPUTemperature sensor = .ok r) :
    ((compareTemperatures cfg sensor env now).1.isAlert = true ↔ r > cfg.TempThreshold)
    ∧ (r = cfg.TempThreshold →
        compareTemperatures cfg sensor env now = (.noAlert r, none)) := by
  constructor
  · simp only [compareTemperatures, h]
    by_cases hgt : r > cfg.TempThreshold
    · simp only [if_pos hgt, hgt, iff_true]
      by_cases hrec : cfg.EmailRecipient = noEmailRecipient
      · simp [hrec, CycleOutcome.isAlert]
      · simp only [if_neg hrec]
        cases hse : (sendEmail cfg _ _ env).1 <;> simp [hse, CycleOutcome.isAlert]
    · simp [if_neg hgt, hgt, CycleOutcome.isAlert]
  · intro heq
    have hngt : ¬(r > cfg.TempThreshold) := by
      rw [heq]
      exact lt_irrefl _
    simp [compareTemperatures, h, hngt]

/-- C1 witness: a concrete reading of 65.5 °C against a 60 °C threshold. -/
theorem compareTemperatures_alert_iff_witness :
    ((compareTemperatures ⟨"a@b.c", 60, 300000000000, false, "picam"⟩
        (.ok "65500") ⟨false, "", "", false⟩ "ts").1.isAlert = true
      ↔ (131 / 2 : ℚ) > (60 : ℚ))
    ∧ ((131 / 2 : ℚ) = (60 : ℚ) →
        compareTemperatures ⟨"a@b.c", 60, 300000000000, false, "picam"⟩
          (.ok "65500") ⟨false, "", "", false⟩ "ts" = (.noAlert (131 / 2), none)) :=
  compareTemperatures_alert_iff _ _ _ _ _ (by
    rw [getCPUTemperature_ofIntString "65500" 65500 (by decide)]
    norm_num)

/-- C5: with the sentinel recipient, `sendEmail` returns success and performs
no subprocess invocation, for any subject, body and subprocess
environment. -/
theorem sendEmail_noRecipient (cfg : Config) (subject body : String) (env : MailEnv)
    (h : cfg.EmailRecipient = noEmailRecipient) :
    sendEmail cfg subject body env = (.ok (), none) := by
  simp [sendEmail, h]

/-- C5 witness: a concrete configuration with the sentinel recipient and a
failing environment still yields success with no invocation. -/
theorem sendEmail_noRecipient_witness :
    sendEmail ⟨"<none>", 60, 300000000000, false, "picam"⟩ "subject" "body"
      ⟨true, "exit status 1", "mail: error", true⟩ = (.ok (), none) :=
  sendEmail_noRecipient _ _ _ _ (by decide)

/-- C6: for arbitrary subject and recipient strings, the subject and
recipient arguments that `sendEmail` passes to the mail subprocess equal the
originals with every `';'` character removed. -/
theorem sendEmail_sanitizes (cfg : Config) (subject body : String) (env : MailEnv)
    (h : cfg.EmailRecipient ≠ noEmailRecipient) :
    (sendEmail cfg subject body env).2 =
      some { cmdPath := mailCommand
             args := ["-s", String.mk (subject.data.filter (fun c => c != ';')),
                      String.mk (cfg.EmailRecipient.data.filter (fun c => c != ';'))]
             stdin := body } := by
  rw [sendEmail_invocation cfg subject body env h]
  simp [replaceAll_semicolon]

/-- C6 witness: a subject and recipient containing semicolons are passed with
the semicolons deleted. -/
theorem sendEmail_sanitizes_witness :
    (sendEmail ⟨"a@b;rm -rf /;c", 60, 300000000000, false, "picam"⟩
        "alert; rm -rf /" "body" ⟨false, "", "", false⟩).2 =
      some { cmdPath := mailCommand
             args := ["-s", String.mk ("alert; rm -rf /".data.filter (fun c => c != ';')),
                      String.mk ("a@b;rm -rf /;c".data.filter (fun c => c != ';'))]
             stdin := "body" } :=
  sendEmail_sanitizes _ _ _ _ (by decide)

/-- C7: `validateMailCommand` rejects a missing path, any other stat
failure, a directory, and a mode without any executable bit, and accepts an
existing regular file with at least one executable bit set. -/
theorem validateMailCommand_spec (path : String) :
    (validateMailCommand path .notExist = .error (.notExistErr path))
    ∧ (∀ msg, validateMailCommand path (.statError msg) = .error (.statErr msg))
    ∧ (∀ info : FileInfo, info.ftype = .directory →
        validateMailCommand path (.found info) = .error (.isDirectoryErr path))
    ∧ (∀ info : FileInfo, info.IsDir = false → info.perm &&& 0o111 = 0 →
        validateMailCommand path (.found info) = .error (.notExecutableErr path))
    ∧ (∀ info : FileInfo, info.ftype = .regular → info.perm &&& 0o111 ≠ 0 →
        validateMailCommand path (.found info) = .ok ()) := by
  refine ⟨rfl, fun msg => rfl, ?_, ?_, ?_⟩
  · intro info hdir
    simp [validateMailCommand, FileInfo.IsDir, hdir]
  · intro info hnd hperm
    simp [validateMailCommand, hnd, hperm]
  · intro info hreg hperm
    have hnd : info.IsDir = false := by
      simp [FileInfo.IsDir, hreg]
    simp [validateMailCommand, hnd, hperm]

/-- C7 witness: the four outcomes at the configured mail path with concrete
stat results (mode 0o755 executable, 0o644 not). -/
theorem validateMailCommand_spec_witness :
    validateMailCommand mailCommand .notExist = .error (.notExistErr mailCommand)
    ∧ validateMailCommand mailCommand (.found ⟨.directory, 0o755⟩) =
        .error (.isDirectoryErr mailCommand)
    ∧ validateMailCommand mailCommand (.found ⟨.regular, 0o644⟩) =
        .error (.notExecutableErr mailCommand)
    ∧ validateMailCommand mailCommand (.found ⟨.regular, 0o755⟩) = .ok () :=
  ⟨(validateMailCommand_spec mailCommand).1,
   (validateMailCommand_spec mailCommand).2.2.1 _ rfl,
   (validateMailCommand_spec mailCommand).2.2.2.1 _ (by decide) (by decide),
   (validateMailCommand_spec mailCommand).2.2.2.2 _ rfl (by decide)⟩

/-- C4 counterexample: `showConfiguration` mutates the configuration after
construction — with an empty recipient, the recipient field changes to the
sentinel `"<none>"`. -/
theorem showConfiguration_mutates_counterexample :
    (showConfiguration ⟨"", 60, 300000000000, false, "picam"⟩).EmailRecipient ≠
      (Config.mk "" 60 300000000000 false "picam").EmailRecipient := by
  decide

/-- C4 amended: `showConfiguration` preserves the threshold, interval,
hostname and test flag; it preserves the whole configuration whenever the
recipient is nonempty, and replaces an empty recipient with the sentinel
`"<none>"`.  (All other operations receive the configuration by value and
cannot mutate it.) -/
theorem showConfiguration_preserves_amended (cfg : Config) :
    (showConfiguration cfg).TempThreshold = cfg.TempThreshold
    ∧ (showConfiguration cfg).CheckInterval = cfg.CheckInterval
    ∧ (showConfiguration cfg).Hostname = cfg.Hostname
    ∧ (showConfiguration cfg).TestEmailFlag = cfg.TestEmailFlag
    ∧ (cfg.EmailRecipient ≠ "" → showConfiguration cfg = cfg)
    ∧ (cfg.EmailRecipient = "" →
        (showConfiguration cfg).EmailRecipient = noEmailRecipient) := by
  unfold showConfiguration
  by_cases h : cfg.EmailRecipient = "" <;> simp [h]

/-- C4 amended witness: a nonempty recipient is preserved whole; an empty
recipient becomes the sentinel. -/
theorem showConfiguration_preserves_amended_witness :
    showConfiguration ⟨"a@b.c", 60, 300000000000, false, "picam"⟩ =
      (⟨"a@b.c", 60, 300000000000, false, "picam"⟩ : Config)
    ∧ (showConfiguration ⟨"", 60, 300000000000, false, "picam"⟩).EmailRecipient =
        noEmailRecipient :=
  ⟨(showConfiguration_preserves_amended _).2.2.2.2.1 (by decide),
   (showConfiguration_preserves_amended _).2.2.2.2.2 rfl⟩

/-- C8: with a recipient configured and a failed subprocess run, `sendEmail`
fails with the distinguished `timeoutError` exactly when the 15-second
deadline was exceeded, and with a plain `sendError` otherwise; the two are
distinguishable via `SendError.isTimeout`. -/
theorem sendEmail_timeout_distinguished (cfg : Config) (subject body : String)
    (env : MailEnv) (h : cfg.EmailRecipient ≠ noEmailRecipient)
    (hrun : env.runErr = true) :
    mailTimeoutSeconds = 15
    ∧ (env.deadlineExceeded = true →
        ∃ msg, (sendEmail cfg subject body env).1 = .error (.timeoutError msg)
          ∧ (SendError.timeoutError msg).isTimeout = true)
    ∧ (env.deadlineExceeded = false →
        ∃ msg w, (sendEmail cfg subject body env).1 = .error (.sendError msg w)
          ∧ (SendError.sendError msg w).isTimeout = false) := by
  refine ⟨rfl, ?_, ?_⟩ <;> intro hd
  · simp only [sendEmail, if_neg h, hrun, hd, if_true]
    exact ⟨_, rfl, rfl⟩
  · simp only [sendEmail, if_neg h, hrun, hd, if_true, Bool.false_eq_true, if_false]
    exact ⟨_, _, rfl, rfl⟩

/-- C8 witness: a timed-out run yields a `timeoutError`, a plain failed run a
`sendError`. -/
theorem sendEmail_timeout_distinguished_witness :
    (∃ msg, (sendEmail ⟨"a@b.c", 60, 300000000000, false, "picam"⟩ "subj" "body"
        ⟨true, "signal: killed", "", true⟩).1 = .error (.timeoutError msg)
      ∧ (SendError.timeoutError msg).isTimeout = true)
    ∧ (∃ msg w, (sendEmail ⟨"a@b.c", 60, 300000000000, false, "picam"⟩ "subj" "body"
        ⟨true, "exit status 1", "mail: bad address", false⟩).1 = .error (.sendError msg w)
      ∧ (SendError.sendError msg w).isTimeout = false) :=
  ⟨(sendEmail_timeout_distinguished _ "subj" "body" _ (by decide) rfl).2.1 rfl,
   (sendEmail_timeout_distinguished _ "subj" "body" _ (by decide) rfl).2.2 rfl⟩

/-- C9: every tick leaves the loop in `running` — a failed sensor read is
swallowed into the `readFailed` outcome and a failed send into the
`alertSendFailed` outcome, both returning normally — and only an OS signal
moves the loop to `shuttingDown`. -/
theorem loopStep_swallows_cycle_errors (cfg : Config) :
    (∀ sensor env now, (loopStep cfg (.tick sensor env now)).1 = .running)
    ∧ (∀ sensor env now e, getCPUTemperature sensor = .error e →
        compareTemperatures cfg sensor env now = (.readFailed e, none))
    ∧ (∀ sensor env now r, getCPUTemperature sensor = .ok r →
        r > cfg.TempThreshold → cfg.EmailRecipient ≠ noEmailRecipient →
        env.runErr = true →
        ∃ e inv, compareTemperatures cfg sensor env now = (.alertSendFailed r e, inv))
    ∧ (∀ sig, (loopStep cfg (.signal sig)).1 = .shuttingDown) := by
  refine ⟨fun sensor env now => rfl, ?_, ?_, fun sig => rfl⟩
  · intro sensor env now e he
    simp [compareTemperatures, he]
  · intro sensor env now r hr hgt hrec hrun
    simp only [compareTemperatures, hr, if_pos hgt, if_neg hrec]
    cases hd : env.deadlineExceeded <;>
      simp [sendEmail, if_neg hrec, hrun, hd]

/-- C9 witness: a concrete failed read is swallowed and the loop stays
running; a concrete signal shuts it down. -/
theorem loopStep_swallows_cycle_errors_witness :
    (loopStep ⟨"a@b.c", 60, 300000000000, false, "picam"⟩
        (.tick (.error "boom") ⟨false, "", "", false⟩ "ts")).1 = .running
    ∧ compareTemperatures ⟨"a@b.c", 60, 300000000000, false, "picam"⟩
        (.error "boom") ⟨false, "", "", false⟩ "ts" =
        (.readFailed (.ioError
          ("failed to read temperature file /sys/class/thermal/thermal_zone0/temp: boom")),
         none)
    ∧ (loopStep ⟨"a@b.c", 60, 300000000000, false, "picam"⟩ (.signal "interrupt")).1 =
        .shuttingDown :=
  ⟨(loopStep_swallows_cycle_errors _).1 _ _ _,
   (loopStep_swallows_cycle_errors _).2.1 _ _ _ _ (by decide),
   (loopStep_swallows_cycle_errors _).2.2.2 _⟩

/-- C10: with a recipient configured, `sendTestEmail` reads the sensor before
composing: a failed read is returned as-is with no invocation attempted; on a
successful read the composed test body piped to the subprocess carries the
hostname, the formatted current reading, and the timestamp. -/
theorem sendTestEmail_reads_before_compose (cfg : Config)
    (sensor : Except String String) (env : MailEnv) (now : String)
    (h : cfg.EmailRecipient ≠ noEmailRecipient) :
    (∀ e, getCPUTemperature sensor = .error e →
      sendTestEmail cfg sensor env now = (.error (.readError e), none))
    ∧ (∀ r, getCPUTemperature sensor = .ok r →
      ∃ inv : Invocation, (sendTestEmail cfg sensor env now).2 = some inv
        ∧ inv.stdin = "Warning: this is a test email\nHostname: " ++ cfg.Hostname ++
            "\nCurrent CPU temperature: " ++ formatF2 r ++ "°C\nTimestamp: " ++ now) := by
  constructor
  · intro e he
    simp [sendTestEmail, if_neg h, he]
  · intro r hr
    simp only [sendTestEmail, if_neg h, hr]
    exact ⟨_, sendEmail_invocation cfg _ _ env h, rfl⟩

/-- C10 witness: a concrete failed read propagates with no invocation; a
concrete successful read produces a body carrying hostname, reading and
timestamp. -/
theorem sendTestEmail_reads_before_compose_witness :
    sendTestEmail ⟨"a@b.c", 60, 300000000000, false, "picam"⟩
        (.error "boom") ⟨false, "", "", false⟩ "ts" =
      (.error (.readError (.ioError
        ("failed to read temperature file /sys/class/thermal/thermal_zone0/temp: boom"))),
       none)
    ∧ (∃ inv : Invocation,
        (sendTestEmail ⟨"a@b.c", 60, 300000000000, false, "picam"⟩
          (.ok "65500") ⟨false, "", "", false⟩ "ts").2 = some inv
        ∧ inv.stdin = "Warning: this is a test email\nHostname: " ++ "picam" ++
            "\nCurrent CPU temperature: " ++ formatF2 (131 / 2) ++ "°C\nTimestamp: " ++ "ts") :=
  ⟨(sendTestEmail_reads_before_compose _ _ _ _ (by decide)).1 _ (by decide),
   (sendTestEmail_reads_before_compose _ _ _ _ (by decide)).2 (131 / 2) (by
      rw [getCPUTemperature_ofIntString "65500" 65500 (by decide)]
      norm_num)⟩

end TempMonitor
